import Mathlib

/-!
A shallow embedding of the FastAPI GitHub proxy (`githubmcp.py`) in Lean 4,
together with theorems settling the specification claims about it.

JSON values are modelled by the inductive type `Json`; already-parsed upstream
response bodies are `Option Json` ( `none` when the body is not valid JSON).
Python truthiness, `str.split()` and `str.lower()` are modelled explicitly.
Handlers that talk to the upstream API are modelled as functions from an
upstream oracle `env : Call → UpResp` to a pair of (outcome, list of upstream
calls performed, in order), so that claims about which upstream calls happen
can be stated directly.
-/

/-- JSON values as parsed by `resp.json()`.  Numbers are modelled as integers
(no claim mentions non-integral numbers); objects are association lists. -/
inductive Json where
  | null : Json
  | bool : Bool → Json
  | num : Int → Json
  | str : String → Json
  | arr : List Json → Json
  | obj : List (String × Json) → Json

/-- Python `dict` lookup on the association list of a JSON object:
`jlookup kvs k = some v` when key `k` is bound to `v`, `none` when absent. -/
def jlookup (k : String) : List (String × Json) → Option Json
  | [] => none
  | (k', v) :: rest => if k' = k then some v else jlookup k rest

/-- Python truthiness of a JSON value (`bool(x)` for the Python value that
`resp.json()` would produce): `None`, `False`, `0`, `""`, `[]`, `{}` are
falsy, everything else truthy. -/
def truthy : Json → Bool
  | .null => false
  | .bool b => b
  | .num n => n != 0
  | .str s => s != ""
  | .arr xs => !xs.isEmpty
  | .obj kvs => !kvs.isEmpty

/-- Truthiness of `dict.get`'s result: Python `dict.get` returns `None` when
the key is absent, which is falsy. -/
def truthyOpt : Option Json → Bool
  | none => false
  | some v => truthy v

/-- `fastapi.HTTPException(status_code, detail)`. -/
structure HTTPError where
  status : Nat
  detail : Json

/-- Characters on which Python `str.split()` (no argument) splits. -/
def pyIsSpace (c : Char) : Bool :=
  c = ' ' || c = '\t' || c = '\n' || c = '\r' || c = '\x0b' || c = '\x0c'

/-- Worker for `pySplit`: accumulates the current token (reversed) while
scanning the character list. -/
def pySplitGo (cur : List Char) : List Char → List String
  | [] => if cur.isEmpty then [] else [String.mk cur.reverse]
  | c :: rest =>
    if pyIsSpace c then
      if cur.isEmpty then pySplitGo [] rest
      else String.mk cur.reverse :: pySplitGo [] rest
    else pySplitGo (c :: cur) rest

/-- Python `str.split()` with no argument: split on runs of whitespace,
discarding empty tokens (hence also leading/trailing whitespace). -/
def pySplit (s : String) : List String := pySplitGo [] s.data

/-- ASCII case folding of one character, as Python `str.lower()` acts on the
ASCII range. -/
def pyLowerChar (c : Char) : Char :=
  if 'A' ≤ c && c ≤ 'Z' then Char.ofNat (c.toNat + 32) else c

/-- Python `str.lower()` (restricted to ASCII case folding, which is all the
`"bearer"` comparison in the source can observe). -/
def pyLower (s : String) : String := String.mk (s.data.map pyLowerChar)

/-- The fixed 401 error raised by `get_token` when no credential resolves. -/
def noTokenError : HTTPError :=
  ⟨401, Json.str "GitHub token not provided via Authorization header or GITHUB_TOKEN env var"⟩

/-- The `token = os.environ.get("GITHUB_TOKEN"); if not token: raise ...`
fallback branch of `get_token`.  `envToken` is the value of the `GITHUB_TOKEN`
environment variable (`none` when unset). -/
def envFallback (envToken : Option String) : Except HTTPError String :=
  match envToken with
  | some t => if t = "" then .error noTokenError else .ok t
  | none => .error noTokenError

/-- `get_token` from the source: resolve the GitHub token from the
`Authorization` header (`none` when the header is absent) or the
`GITHUB_TOKEN` environment variable. -/
def get_token (authorization : Option String) (envToken : Option String) :
    Except HTTPError String :=
  match authorization with
  | some a =>
    if a = "" then envFallback envToken
    else
      match pySplit a with
      | [p0, p1] => if pyLower p0 = "bearer" then .ok p1 else .ok a
      | _ => .ok a
  | none => envFallback envToken

/-- An upstream HTTP response as observed by `gh_request`: the status code,
the result of `resp.json()` (`none` when the body is not valid JSON), and the
raw body text `resp.text`. -/
structure UpResp where
  status : Nat
  json : Option Json
  text : String

/-- One upstream request as issued through `requests.request` in
`gh_request`: method, path (appended to the fixed base URL), optional JSON
body, optional query parameters. -/
structure Call where
  method : String
  path : String
  json : Option Json
  params : Option (List (String × String))

/-- `gh_request` from the source, given the upstream response: status ≥ 400
raises an `HTTPException` with the upstream status and the body parsed as
JSON when possible (else `{"message": resp.text}`); status < 400 returns the
parsed JSON body, or `{"status": "ok"}` when the body is not valid JSON. -/
def gh_request (r : UpResp) : Except HTTPError Json :=
  if 400 ≤ r.status then
    .error ⟨r.status, match r.json with
      | some d => d
      | none => Json.obj [("message", Json.str r.text)]⟩
  else
    match r.json with
    | some d => .ok d
    | none => .ok (Json.obj [("status", Json.str "ok")])

/-- Outcomes a handler body can produce: a raised `HTTPException`, or an
uncaught Python `AttributeError` (from calling `.get` on a non-`dict` value),
which FastAPI turns into a generic 500 response. -/
inductive PyErr where
  | httpErr : HTTPError → PyErr
  | attributeError : PyErr

/-- Lift a `gh_request` outcome into a handler outcome. -/
def liftHttp : Except HTTPError Json → Except PyErr Json
  | .ok v => .ok v
  | .error e => .error (.httpErr e)

/-- The HTTP response (status, body) FastAPI produces for a handler outcome:
200 with the returned value, the exception's status with `{"detail": ...}`,
or a generic `500 {"detail": "Internal Server Error"}` for an uncaught
exception. -/
def responseOf : Except PyErr Json → Nat × Json
  | .ok v => (200, v)
  | .error (.httpErr e) => (e.status, Json.obj [("detail", e.detail)])
  | .error .attributeError => (500, Json.obj [("detail", Json.str "Internal Server Error")])

/-- `CreateBranchPayload` (pydantic model): `new_branch` required,
`base_branch` defaulting to `"main"`. -/
structure CreateBranchPayload where
  new_branch : String
  base_branch : String

/-- The first upstream call of `create_branch`:
`GET /repos/{owner}/{repo}/git/ref/heads/{base_branch}`. -/
def getRefCall (owner repo base_branch : String) : Call :=
  ⟨"GET", "/repos/" ++ owner ++ "/" ++ repo ++ "/git/ref/heads/" ++ base_branch,
    none, none⟩

/-- The second upstream call of `create_branch`:
`POST /repos/{owner}/{repo}/git/refs` with body `{ref, sha}`. -/
def postRefCall (owner repo new_branch : String) (sha : Json) : Call :=
  ⟨"POST", "/repos/" ++ owner ++ "/" ++ repo ++ "/git/refs",
    some (Json.obj [("ref", Json.str ("refs/heads/" ++ new_branch)), ("sha", sha)]),
    none⟩

/-- `base_ref.get("object", {}).get("sha")` on a parsed body.  The outer
`.get` needs `base_ref` to be a `dict` (else `AttributeError`); when `"object"`
is absent the default `{}` is used; the inner `.get` needs that value to be a
`dict` (else `AttributeError`); the result is the value at `"sha"`, or Python
`None` (modelled `none`) when absent. -/
def extractSha (body : Json) : Except Unit (Option Json) :=
  match body with
  | .obj kvs =>
    match (jlookup "object" kvs).getD (Json.obj []) with
    | .obj inner => .ok (jlookup "sha" inner)
    | _ => .error ()
  | _ => .error ()

/-- The fixed 500 error of `create_branch` when no usable SHA was found. -/
def noShaError : HTTPError := ⟨500, Json.str "Could not resolve base branch SHA"⟩

/-- `create_branch` from the source, as a function of the upstream oracle
`env`: GET the base ref, extract `object.sha`, raise the fixed 500 when the
extracted SHA is falsy, else POST the new ref and return that call's result.
The second component lists the upstream calls performed, in order. -/
def create_branch (owner repo : String) (payload : CreateBranchPayload)
    (env : Call → UpResp) : Except PyErr Json × List Call :=
  let c1 := getRefCall owner repo payload.base_branch
  match gh_request (env c1) with
  | .error e => (.error (.httpErr e), [c1])
  | .ok base_ref =>
    match extractSha base_ref with
    | .error _ => (.error .attributeError, [c1])
    | .ok base_sha =>
      if truthyOpt base_sha then
        let c2 := postRefCall owner repo payload.new_branch (base_sha.getD Json.null)
        (liftHttp (gh_request (env c2)), [c1, c2])
      else
        (.error (.httpErr noShaError), [c1])

/-- `MergePrPayload` (pydantic model): all fields optional, `merge_method`
defaulting to `"merge"`. -/
structure MergePrPayload where
  commit_title : Option String
  commit_message : Option String
  merge_method : Option String

/-- The payload pydantic builds for the request body `{}`: every field takes
its declared default. -/
def mergePrDefaults : MergePrPayload := ⟨none, none, some "merge"⟩

/-- Python `None` / `str` values placed in a dict that is sent as JSON. -/
def optStr : Option String → Json
  | none => Json.null
  | some s => Json.str s

/-- The upstream call built by `merge_pr`:
`PUT /repos/{owner}/{repo}/pulls/{pr_number}/merge` with the three-field body. -/
def mergePrCall (owner repo : String) (pr_number : Int) (payload : MergePrPayload) : Call :=
  ⟨"PUT",
    "/repos/" ++ owner ++ "/" ++ repo ++ "/pulls/" ++ toString pr_number ++ "/merge",
    some (Json.obj
      [("commit_title", optStr payload.commit_title),
       ("commit_message", optStr payload.commit_message),
       ("merge_method", optStr payload.merge_method)]),
    none⟩

/-- `merge_pr` from the source, as a function of the upstream oracle. -/
def merge_pr (owner repo : String) (pr_number : Int) (payload : MergePrPayload)
    (env : Call → UpResp) : Except HTTPError Json × List Call :=
  let c := mergePrCall owner repo pr_number payload
  (gh_request (env c), [c])

/-- The upstream call built by `get_contents`:
`GET /repos/{owner}/{repo}/contents/{path}`, with `params = {"ref": ref} if
ref else None` (so an absent or empty `ref` yields no query parameters). -/
def getContentsCall (owner repo path : String) (ref : Option String) : Call :=
  ⟨"GET", "/repos/" ++ owner ++ "/" ++ repo ++ "/contents/" ++ path, none,
    match ref with
    | some r => if r = "" then none else some [("ref", r)]
    | none => none⟩

/-- `get_contents` from the source, as a function of the upstream oracle. -/
def get_contents (owner repo path : String) (ref : Option String)
    (env : Call → UpResp) : Except HTTPError Json × List Call :=
  let c := getContentsCall owner repo path ref
  (gh_request (env c), [c])

/-! ## Theorems settling the claims -/

/-- Claim C4 (confirmed): with no `Authorization` header and no `GITHUB_TOKEN`
environment variable, `get_token` fails with HTTP 401 and the fixed static
detail message. -/
theorem get_token_no_credentials_401 :
    get_token none none = .error noTokenError ∧
    noTokenError.status = 401 ∧
    noTokenError.detail =
      Json.str "GitHub token not provided via Authorization header or GITHUB_TOKEN env var" :=
  ⟨rfl, rfl, rfl⟩

/-- Claim C5 (confirmed): on upstream status ≥ 400, `gh_request` fails with
exactly the upstream status, with detail the parsed JSON body when it parses
and `{message: raw text}` otherwise; in particular an upstream 404 with a JSON
body is surfaced as a 404 carrying that body unchanged. -/
theorem gh_request_error_passthrough :
    (∀ (r : UpResp) (d : Json), 400 ≤ r.status → r.json = some d →
      gh_request r = .error ⟨r.status, d⟩)
    ∧ (∀ r : UpResp, 400 ≤ r.status → r.json = none →
      gh_request r = .error ⟨r.status, Json.obj [("message", Json.str r.text)]⟩)
    ∧ (∀ (r : UpResp) (d : Json), r.status = 404 → r.json = some d →
      gh_request r = .error ⟨404, d⟩) := by
  refine ⟨?_, ?_, ?_⟩
  · intro r d h hj
    simp [gh_request, h, hj]
  · intro r h hj
    simp [gh_request, h, hj]
  · intro r d h hj
    simp [gh_request, h, hj]

/-- Spot check for `gh_request_error_passthrough` at concrete responses. -/
theorem gh_request_error_passthrough_spot :
    gh_request ⟨404, some (Json.obj [("message", Json.str "Not Found")]), "raw"⟩ =
      .error ⟨404, Json.obj [("message", Json.str "Not Found")]⟩ ∧
    gh_request ⟨500, none, "oops"⟩ = .error ⟨500, Json.obj [("message", Json.str "oops")]⟩ :=
  ⟨gh_request_error_passthrough.2.2 ⟨404, some (Json.obj [("message", Json.str "Not Found")]), "raw"⟩
      (Json.obj [("message", Json.str "Not Found")]) rfl rfl,
   gh_request_error_passthrough.2.1 ⟨500, none, "oops"⟩ (by decide) rfl⟩

/-- Claim C6 (confirmed): on upstream status < 400, `gh_request` returns the
parsed JSON body when it parses, and the fixed marker `{status: "ok"}` when
the body is not valid JSON. -/
theorem gh_request_success :
    (∀ (r : UpResp) (d : Json), r.status < 400 → r.json = some d → gh_request r = .ok d)
    ∧ (∀ r : UpResp, r.status < 400 → r.json = none →
      gh_request r = .ok (Json.obj [("status", Json.str "ok")])) := by
  constructor
  · intro r d h hj
    simp [gh_request, Nat.not_le.mpr h, hj]
  · intro r h hj
    simp [gh_request, Nat.not_le.mpr h, hj]

/-- Spot check for `gh_request_success` at concrete responses. -/
theorem gh_request_success_spot :
    gh_request ⟨200, some (Json.arr [Json.num 1]), "[1]"⟩ = .ok (Json.arr [Json.num 1]) ∧
    gh_request ⟨204, none, ""⟩ = .ok (Json.obj [("status", Json.str "ok")]) :=
  ⟨gh_request_success.1 ⟨200, some (Json.arr [Json.num 1]), "[1]"⟩ (Json.arr [Json.num 1])
      (by decide) rfl,
   gh_request_success.2 ⟨204, none, ""⟩ (by decide) rfl⟩

/-- Claim C7 (confirmed): with the default payload (request body `{}`),
`merge_pr` issues exactly one upstream call, a PUT to
`/repos/{owner}/{repo}/pulls/{pr_number}/merge` whose JSON body is exactly
`{commit_title: null, commit_message: null, merge_method: "merge"}`, and
returns that call's result. -/
theorem merge_pr_default_body (owner repo : String) (pr_number : Int) (env : Call → UpResp) :
    merge_pr owner repo pr_number mergePrDefaults env =
      (gh_request (env (mergePrCall owner repo pr_number mergePrDefaults)),
       [⟨"PUT",
          "/repos/" ++ owner ++ "/" ++ repo ++ "/pulls/" ++ toString pr_number ++ "/merge",
          some (Json.obj
            [("commit_title", Json.null), ("commit_message", Json.null),
             ("merge_method", Json.str "merge")]),
          none⟩]) :=
  rfl

/-- Claim C8 (confirmed): `get_contents` with no `ref` issues the upstream GET
with no query parameters at all, and with a non-empty `ref` it passes exactly
the query parameter mapping `{ref: value}`. -/
theorem get_contents_ref_param :
    (∀ (owner repo path : String) (env : Call → UpResp),
      (get_contents owner repo path none env).2 =
        [⟨"GET", "/repos/" ++ owner ++ "/" ++ repo ++ "/contents/" ++ path, none, none⟩])
    ∧ (∀ (owner repo path v : String) (env : Call → UpResp), v ≠ "" →
      (get_contents owner repo path (some v) env).2 =
        [⟨"GET", "/repos/" ++ owner ++ "/" ++ repo ++ "/contents/" ++ path, none,
          some [("ref", v)]⟩]) := by
  constructor
  · intro owner repo path env
    rfl
  · intro owner repo path v env hv
    simp [get_contents, getContentsCall, hv]

/-- Spot check for `get_contents_ref_param` at concrete arguments. -/
theorem get_contents_ref_param_spot :
    (get_contents "octo" "hello" "README.md" none (fun _ => ⟨200, none, ""⟩)).2 =
      [⟨"GET", "/repos/octo/hello/contents/README.md", none, none⟩] ∧
    (get_contents "octo" "hello" "README.md" (some "dev") (fun _ => ⟨200, none, ""⟩)).2 =
      [⟨"GET", "/repos/octo/hello/contents/README.md", none, some [("ref", "dev")]⟩] :=
  ⟨get_contents_ref_param.1 "octo" "hello" "README.md" (fun _ => ⟨200, none, ""⟩),
   get_contents_ref_param.2 "octo" "hello" "README.md" "dev" (fun _ => ⟨200, none, ""⟩)
      (by decide)⟩

/-- Claim C10 (confirmed): `get_contents` with an empty-string `ref` value
behaves exactly like an absent `ref` — the upstream call carries no query
parameters, because `params` is built only when the `ref` value is truthy. -/
theorem get_contents_empty_ref_no_params (owner repo path : String) (env : Call → UpResp) :
    (get_contents owner repo path (some "") env).2 =
      [⟨"GET", "/repos/" ++ owner ++ "/" ++ repo ++ "/contents/" ++ path, none, none⟩] :=
  rfl

/-- Claim C3 (counterexample): the claim says that with no header the
resolved credential is the `GITHUB_TOKEN` environment value whenever that
variable is set.  With `GITHUB_TOKEN` set to the empty string, the code takes
the `if not token` branch and raises the 401 instead of returning the value,
so the claim fails at this input. -/
theorem get_token_empty_env_counterexample :
    get_token none (some "") = .error noTokenError ∧
    get_token none (some "") ≠ .ok "" := by
  constructor
  · rfl
  · intro h
    rw [show get_token none (some "") = .error noTokenError from rfl] at h
    exact Except.noConfusion h

/-- Claim C3 (amended): a header value that splits into exactly two
whitespace-separated tokens with the first case-insensitively `"bearer"`
resolves to the second token; any other present, non-empty header value
resolves verbatim; with no header, the credential is the `GITHUB_TOKEN`
environment value whenever that is set to a non-empty string. -/
theorem get_token_resolution :
    (∀ (a : String) (envToken : Option String) (p0 p1 : String),
      pySplit a = [p0, p1] → pyLower p0 = "bearer" →
      get_token (some a) envToken = .ok p1)
    ∧ (∀ (a : String) (envToken : Option String), a ≠ "" →
      (∀ p0 p1, pySplit a = [p0, p1] → pyLower p0 ≠ "bearer") →
      get_token (some a) envToken = .ok a)
    ∧ (∀ t : String, t ≠ "" → get_token none (some t) = .ok t) := by
  refine ⟨?_, ?_, ?_⟩
  · intro a envToken p0 p1 hs hb
    have ha : a ≠ "" := by
      intro h
      rw [h, show pySplit "" = [] from rfl] at hs
      exact List.noConfusion hs
    simp [get_token, ha, hs, hb]
  · intro a envToken ha hnb
    rcases hs : pySplit a with _ | ⟨p0, _ | ⟨p1, _ | ⟨p2, rest⟩⟩⟩
    · simp [get_token, ha, hs]
    · simp [get_token, ha, hs]
    · simp [get_token, ha, hs, hnb p0 p1 hs]
    · simp [get_token, ha, hs]
  · intro t ht
    simp [get_token, envFallback, ht]

/-- Spot check for `get_token_resolution`: a Bearer header, a non-Bearer
two-token header returned verbatim, and the environment fallback. -/
theorem get_token_resolution_spot :
    get_token (some "Bearer abc") none = .ok "abc" ∧
    get_token (some "Token abc") (some "ignored") = .ok "Token abc" ∧
    get_token none (some "envtok") = .ok "envtok" := by
  refine ⟨get_token_resolution.1 "Bearer abc" none "Bearer" "abc" rfl rfl,
          get_token_resolution.2.1 "Token abc" (some "ignored") (by decide) ?_,
          get_token_resolution.2.2 "envtok" (by decide)⟩
  intro p0 p1 h
  rw [show pySplit "Token abc" = ["Token", "abc"] from rfl] at h
  injection h with h0 h'
  injection h' with h1 h''
  rw [← h0]
  decide

/-- Claim C9 (confirmed): `create_branch` treats a present-but-falsy SHA like
an absent one — when the first response body has `object.sha` bound to the
empty string, or has `object` bound to an empty object, the handler raises
the fixed 500 "Could not resolve base branch SHA" and performs no second
upstream call, because the code tests the extracted SHA for truthiness. -/
theorem create_branch_falsy_sha_500 :
    (∀ (owner repo nb bb : String) (env : Call → UpResp)
        (kvs inner : List (String × Json)),
      (env (getRefCall owner repo bb)).status < 400 →
      (env (getRefCall owner repo bb)).json = some (Json.obj kvs) →
      jlookup "object" kvs = some (Json.obj inner) →
      jlookup "sha" inner = some (Json.str "") →
      create_branch owner repo ⟨nb, bb⟩ env =
        (.error (.httpErr noShaError), [getRefCall owner repo bb]))
    ∧ (∀ (owner repo nb bb : String) (env : Call → UpResp)
        (kvs : List (String × Json)),
      (env (getRefCall owner repo bb)).status < 400 →
      (env (getRefCall owner repo bb)).json = some (Json.obj kvs) →
      jlookup "object" kvs = some (Json.obj []) →
      create_branch owner repo ⟨nb, bb⟩ env =
        (.error (.httpErr noShaError), [getRefCall owner repo bb])) := by
  constructor
  · intro owner repo nb bb env kvs inner hstat hjson hobj hsha
    have h1 : gh_request (env (getRefCall owner repo bb)) = .ok (Json.obj kvs) := by
      simp [gh_request, hjson, Nat.not_le.mpr hstat]
    simp [create_branch, h1, extractSha, hobj, hsha, truthyOpt, truthy]
  · intro owner repo nb bb env kvs hstat hjson hobj
    have h1 : gh_request (env (getRefCall owner repo bb)) = .ok (Json.obj kvs) := by
      simp [gh_request, hjson, Nat.not_le.mpr hstat]
    simp [create_branch, h1, extractSha, hobj, jlookup, truthyOpt]

/-- Spot check for `create_branch_falsy_sha_500` at both concrete body
shapes. -/
theorem create_branch_falsy_sha_500_spot :
    create_branch "o" "r" ⟨"nb", "main"⟩
        (fun _ => ⟨200, some (Json.obj [("object", Json.obj [("sha", Json.str "")])]), ""⟩) =
      (.error (.httpErr noShaError), [getRefCall "o" "r" "main"]) ∧
    create_branch "o" "r" ⟨"nb", "main"⟩
        (fun _ => ⟨200, some (Json.obj [("object", Json.obj [])]), ""⟩) =
      (.error (.httpErr noShaError), [getRefCall "o" "r" "main"]) :=
  ⟨create_branch_falsy_sha_500.1 "o" "r" "nb" "main"
      (fun _ => ⟨200, some (Json.obj [("object", Json.obj [("sha", Json.str "")])]), ""⟩)
      [("object", Json.obj [("sha", Json.str "")])] [("sha", Json.str "")]
      (by decide) rfl rfl rfl,
   create_branch_falsy_sha_500.2 "o" "r" "nb" "main"
      (fun _ => ⟨200, some (Json.obj [("object", Json.obj [])]), ""⟩)
      [("object", Json.obj [])]
      (by decide) rfl rfl⟩

/-- Claim C1 (counterexample): the claim quantifies over every first-response
body containing `object.sha = S`.  At `S = ""` the body does contain
`object.sha`, yet the handler performs no second upstream call (the trace is
the single GET) and returns the synthetic 500 instead of a POST result, so
the claim as stated fails. -/
theorem create_branch_sha_counterexample :
    create_branch "o" "r" ⟨"nb", "main"⟩
        (fun _ => ⟨200, some (Json.obj [("object", Json.obj [("sha", Json.str "")])]), "b"⟩) =
      (.error (.httpErr noShaError), [getRefCall "o" "r" "main"]) ∧
    ([getRefCall "o" "r" "main"] : List Call).length = 1 :=
  ⟨rfl, rfl⟩

/-- Claim C1 (amended): for every successful (status < 400) first response
whose body contains `object.sha = S` with `S` truthy, `create_branch`
performs exactly one second upstream call — POST
`/repos/{owner}/{repo}/git/refs` with JSON body
`{ref: "refs/heads/<new_branch>", sha: S}` — and returns that second call's
result as its own result. -/
theorem create_branch_truthy_sha_posts_ref
    (owner repo nb bb : String) (env : Call → UpResp)
    (kvs inner : List (String × Json)) (S : Json)
    (hstat : (env (getRefCall owner repo bb)).status < 400)
    (hjson : (env (getRefCall owner repo bb)).json = some (Json.obj kvs))
    (hobj : jlookup "object" kvs = some (Json.obj inner))
    (hsha : jlookup "sha" inner = some S)
    (ht : truthy S = true) :
    create_branch owner repo ⟨nb, bb⟩ env =
      (liftHttp (gh_request (env (postRefCall owner repo nb S))),
       [getRefCall owner repo bb, postRefCall owner repo nb S]) := by
  have h1 : gh_request (env (getRefCall owner repo bb)) = .ok (Json.obj kvs) := by
    simp [gh_request, hjson, Nat.not_le.mpr hstat]
  simp [create_branch, h1, extractSha, hobj, hsha, truthyOpt, ht]

/-- Spot check for `create_branch_truthy_sha_posts_ref`: with both upstream
responses canned as `200 {"object": {"sha": "abc123"}}`, the handler issues
GET then POST with `{ref: "refs/heads/feature-x", sha: "abc123"}` and returns
the POST's parsed body. -/
theorem create_branch_truthy_sha_posts_ref_spot :
    create_branch "acme" "widget" ⟨"feature-x", "main"⟩
        (fun _ => ⟨200, some (Json.obj [("object", Json.obj [("sha", Json.str "abc123")])]), ""⟩) =
      (.ok (Json.obj [("object", Json.obj [("sha", Json.str "abc123")])]),
       [getRefCall "acme" "widget" "main",
        postRefCall "acme" "widget" "feature-x" (Json.str "abc123")]) :=
  (create_branch_truthy_sha_posts_ref "acme" "widget" "feature-x" "main"
      (fun _ => ⟨200, some (Json.obj [("object", Json.obj [("sha", Json.str "abc123")])]), ""⟩)
      [("object", Json.obj [("sha", Json.str "abc123")])] [("sha", Json.str "abc123")]
      (Json.str "abc123") (by decide) rfl rfl rfl (by decide)).trans rfl

/-- Claim C2 (counterexample): the claim quantifies over every first-response
body lacking `object.sha`.  The body `{"object": null}` lacks `object.sha`,
but on it `base_ref.get("object", {}).get("sha")` calls `.get` on `None` and
raises `AttributeError`, so the caller sees the framework's generic
`500 {"detail": "Internal Server Error"}` rather than the fixed
"Could not resolve base branch SHA" message (no second call happens). -/
theorem create_branch_object_null_counterexample :
    responseOf (create_branch "o" "r" ⟨"nb", "main"⟩
        (fun _ => ⟨200, some (Json.obj [("object", Json.null)]), "b"⟩)).1 =
      (500, Json.obj [("detail", Json.str "Internal Server Error")]) ∧
    (create_branch "o" "r" ⟨"nb", "main"⟩
        (fun _ => ⟨200, some (Json.obj [("object", Json.null)]), "b"⟩)).2 =
      [getRefCall "o" "r" "main"] ∧
    ("Internal Server Error" : String) ≠ "Could not resolve base branch SHA" :=
  ⟨rfl, rfl, by decide⟩

/-- Claim C2 (amended): for every successful first response whose body is a
JSON object on which the `object.sha` access is defined but yields nothing —
`object` absent, or `object` an object without a `sha` key — the handler
performs no second upstream call and fails with HTTP 500 and the fixed
message "Could not resolve base branch SHA"; and whenever the trace contains
a second call at all, the first call succeeded and yielded a truthy SHA. -/
theorem create_branch_missing_sha_500 :
    (∀ (owner repo nb bb : String) (env : Call → UpResp)
        (kvs : List (String × Json)),
      (env (getRefCall owner repo bb)).status < 400 →
      (env (getRefCall owner repo bb)).json = some (Json.obj kvs) →
      (jlookup "object" kvs = none ∨
        ∃ inner, jlookup "object" kvs = some (Json.obj inner) ∧
          jlookup "sha" inner = none) →
      create_branch owner repo ⟨nb, bb⟩ env =
        (.error (.httpErr noShaError), [getRefCall owner repo bb]) ∧
      noShaError.status = 500 ∧
      noShaError.detail = Json.str "Could not resolve base branch SHA")
    ∧ (∀ (owner repo : String) (payload : CreateBranchPayload) (env : Call → UpResp),
      (create_branch owner repo payload env).2.length = 2 →
      ∃ body sha,
        gh_request (env (getRefCall owner repo payload.base_branch)) = .ok body ∧
        extractSha body = .ok (some sha) ∧ truthy sha = true) := by
  constructor
  · intro owner repo nb bb env kvs hstat hjson hmiss
    have h1 : gh_request (env (getRefCall owner repo bb)) = .ok (Json.obj kvs) := by
      simp [gh_request, hjson, Nat.not_le.mpr hstat]
    refine ⟨?_, rfl, rfl⟩
    rcases hmiss with hobj | ⟨inner, hobj, hsha⟩
    · simp [create_branch, h1, extractSha, hobj, jlookup, truthyOpt]
    · simp [create_branch, h1, extractSha, hobj, hsha, truthyOpt]
  · intro owner repo payload env hlen
    rcases hg : gh_request (env (getRefCall owner repo payload.base_branch)) with e | body
    · simp [create_branch, hg] at hlen
    · rcases hx : extractSha body with u | sha?
      · simp [create_branch, hg, hx] at hlen
      · rcases sha? with _ | s
        · simp [create_branch, hg, hx, truthyOpt] at hlen
        · by_cases ht : truthy s = true
          · exact ⟨body, s, rfl, hx, ht⟩
          · simp [create_branch, hg, hx, truthyOpt, ht] at hlen

/-- Spot check for `create_branch_missing_sha_500`: a body whose `object` has
no `sha` key produces the fixed 500 and a one-call trace. -/
theorem create_branch_missing_sha_500_spot :
    create_branch "o" "r" ⟨"nb", "main"⟩
        (fun _ => ⟨200, some (Json.obj [("object", Json.obj [("url", Json.str "u")])]), ""⟩) =
      (.error (.httpErr noShaError), [getRefCall "o" "r" "main"]) :=
  (create_branch_missing_sha_500.1 "o" "r" "nb" "main"
      (fun _ => ⟨200, some (Json.obj [("object", Json.obj [("url", Json.str "u")])]), ""⟩)
      [("object", Json.obj [("url", Json.str "u")])]
      (by decide) rfl
      (Or.inr ⟨[("url", Json.str "u")], rfl, rfl⟩)).1
